import Mathlib

/-!
Shallow embedding of the Amora-Prime front-end logic that the specification
talks about: the form validators (src/js/utils.js, and the contact-form field
validator), the browser-storage wrappers (src/js/utils.js), and the
carousel/slider state machine (src/js/slider.js).  Each definition is a direct
transcription of the corresponding JavaScript function; machine numbers are
modelled as Int/Nat (the slider indices are small integers, no overflow is
involved), fallible browser APIs are modelled with Except, and the
single-threaded event loop is modelled by applying operations (and timer
callbacks) one at a time to an explicit state record.
-/

namespace Amora

/-! ### Character classes used by the validation regexes -/

/-- The characters matched by the JavaScript regex class backslash-s, restricted
to the ASCII range (space, tab, line feed, vertical tab, form feed, carriage
return).  All inputs in the specification are ASCII, so the additional Unicode
space code points matched by the JavaScript class are irrelevant here. -/
def jsWhitespace (c : Char) : Bool :=
  c = ' ' || c = '\t' || c = '\n' || c = '\x0b' || c = '\x0c' || c = '\r'

/-- A character admitted by the email regex class [^backslash-s@]: anything
that is neither whitespace nor the at sign. -/
def emailAtomChar (c : Char) : Bool :=
  !(jsWhitespace c) && !(c = '@')

namespace Utils

/-- The part of the email regex after the at sign: [^\s@]+ then a literal dot
then [^\s@]+.  A list of characters matches exactly when every character is in
the class (the dot itself is in the class) and some dot occurs at an interior
position, so that both sides of it are nonempty. -/
def emailTailMatch (l : List Char) : Bool :=
  l.all emailAtomChar &&
    (List.range l.length).any (fun i =>
      decide (0 < i) && decide (i + 1 < l.length) && (l.getD i ' ' = '.'))

/-- src/js/utils.js, isValidEmail (lines 337-340): tests the anchored regex
composed of [^\s@]+ then the at sign then [^\s@]+ then a dot then [^\s@]+.
The string matches exactly when it splits at an at sign whose left part is a
nonempty run of class characters and whose right part matches emailTailMatch;
since the class excludes the at sign, the split point is unique. -/
def isValidEmail (s : String) : Bool :=
  let l := s.toList
  (List.range l.length).any (fun j =>
    (l.getD j ' ' = '@') && decide (0 < j) && (l.take j).all emailAtomChar &&
      emailTailMatch (l.drop (j + 1)))

/-- A character admitted by the phone regex class: digit, whitespace, hyphen,
plus, or parenthesis. -/
def phoneChar (c : Char) : Bool :=
  c.isDigit || jsWhitespace c || c = '-' || c = '+' || c = '(' || c = ')'

/-- Number of decimal digits in a string: the length of
value.replace(non-digits, empty string) in the JavaScript source. -/
def digitCount (s : String) : Nat :=
  (s.toList.filter Char.isDigit).length

/-- src/js/utils.js, isValidPhone (lines 347-350): the whole (nonempty) string
must consist of digits, whitespace, hyphens, pluses and parentheses, and must
contain at least ten digits. -/
def isValidPhone (s : String) : Bool :=
  (!s.toList.isEmpty && s.toList.all phoneChar) && decide (10 ≤ digitCount s)

end Utils

namespace ContactForm

/-- The phone branch of ContactForm.validateField (contact-form handler,
lines 66-73), applied to a nonempty trimmed value: the field is valid unless
the number of digits in the value is below ten.  No character-class check is
performed. -/
def validatePhoneValue (value : String) : Bool :=
  !(decide (Utils.digitCount value < 10))

end ContactForm

/-! ### Browser local storage (src/js/utils.js, getStorage / setStorage)

The browser storage object is modelled as a key-value list together with a
flag saying whether the underlying storage access throws (quota exceeded,
access denied).  The raw accessors return Except, matching the fact that
localStorage.getItem / setItem may throw; the Utils wrappers catch. -/

/-- The browser localStorage object: its contents plus whether any access to it
currently throws (quota exceeded or access denied). -/
structure StorageBackend where
  data : List (String × String)
  failing : Bool
  deriving Repr, DecidableEq

/-- localStorage.getItem: throws when the backend is failing, otherwise returns
the stored string for the key, or none when the key is absent. -/
def rawGetItem (b : StorageBackend) (key : String) : Except String (Option String) :=
  if b.failing then .error "access denied"
  else .ok ((b.data.find? (fun p => p.1 = key)).map Prod.snd)

/-- localStorage.setItem: throws when the backend is failing, otherwise stores
the value under the key. -/
def rawSetItem (b : StorageBackend) (key value : String) : Except String StorageBackend :=
  if b.failing then .error "quota exceeded"
  else .ok { b with data := (key, value) :: b.data.filter (fun p => !(p.1 = key)) }

namespace Utils

/-- src/js/utils.js, getStorage (lines 246-254): reads the item and parses it
with JSON.parse; the whole body is wrapped in try/catch and any exception
(from the storage access or from the parse, abstracted here as the parse
argument) results in null.  An absent item also yields null. -/
def getStorage {V : Type} (parse : String → Except String V)
    (b : StorageBackend) (key : String) : Option V :=
  match rawGetItem b key with
  | .error _ => none
  | .ok none => none
  | .ok (some item) =>
    match parse item with
    | .error _ => none
    | .ok v => some v

/-- src/js/utils.js, setStorage (lines 261-267): stringifies the value and
stores it; the body is wrapped in try/catch, and on an exception the error is
logged and the storage is left as it was. -/
def setStorage {V : Type} (stringify : V → String)
    (b : StorageBackend) (key : String) (v : V) : StorageBackend :=
  match rawSetItem b key (stringify v) with
  | .error _ => b
  | .ok b2 => b2

end Utils

/-! ### The slider / carousel state machine (src/js/slider.js)

State is the mutable part of the Slider instance that the index logic touches:
currentSlide (a JavaScript number, modelled as Int since goToSlide stores any
argument unchanged and handleInfiniteLoop compares it against 0 and
totalSlides), totalSlides, the isAnimating transition lock, and the options
object.  DOM effects (track transform, active classes) carry no state that
feeds back into the index logic and are omitted; the slideChange custom event
is returned explicitly.  The setTimeout callback scheduled by goToSlide is
modelled as a separate `tick` operation delivered later by the event loop. -/

/-- The option keys of the Slider options object that the index logic and the
responsive reconfiguration read or write (src/js/slider.js lines 13-28). -/
structure Settings where
  slidesToShow : Option Nat := none
  slidesToScroll : Option Nat := none
  infinite : Option Bool := none
  swipeThreshold : Option Nat := none
  deriving Repr, DecidableEq

/-- One entry of the responsive option array: a width threshold and the
settings object assigned onto the options when the window is at most that
wide (src/js/slider.js lines 393-397). -/
structure Breakpoint where
  breakpoint : Nat
  settings : Settings
  deriving Repr, DecidableEq

/-- The Slider options relevant to the index logic, with the defaults of
src/js/slider.js lines 13-28. -/
structure Options where
  slidesToShow : Nat := 1
  slidesToScroll : Nat := 1
  infinite : Bool := true
  swipeThreshold : Nat := 50
  responsive : List Breakpoint := []
  deriving Repr, DecidableEq

/-- Object.assign(options, settings): every key present on the settings object
overwrites the corresponding option; absent keys leave the option unchanged.
The breakpoint settings objects in this repository carry only display options,
never a responsive key. -/
def assignSettings (o : Options) (s : Settings) : Options :=
  { o with
    slidesToShow := s.slidesToShow.getD o.slidesToShow
    slidesToScroll := s.slidesToScroll.getD o.slidesToScroll
    infinite := s.infinite.getD o.infinite
    swipeThreshold := s.swipeThreshold.getD o.swipeThreshold }

/-- The mutable Slider fields read or written by the index logic. -/
structure SliderState where
  currentSlide : Int
  totalSlides : Nat
  isAnimating : Bool
  options : Options
  deriving Repr, DecidableEq

/-- The custom events dispatched by the slider. -/
inductive SliderEvent where
  | slideChange (currentSlide : Int)
  deriving Repr, DecidableEq

namespace Slider

/-- src/js/slider.js, goToSlide (lines 256-284): returns immediately when the
transition lock is held; otherwise takes the lock, stores the index unchanged
(no clamping), moves the track, and dispatches slideChange with the new index.
The setTimeout callback that releases the lock is the separate `tick`
operation below. -/
def goToSlide (st : SliderState) (index : Int) : SliderState × List SliderEvent :=
  if st.isAnimating then (st, [])
  else ({ st with isAnimating := true, currentSlide := index },
        [.slideChange index])

/-- src/js/slider.js, next (lines 289-301): advance by slidesToScroll; at or
past the slide count, wrap to 0 under infinite mode, otherwise clamp to the
last slide; then goToSlide. -/
def next (st : SliderState) : SliderState × List SliderEvent :=
  let nextSlide := st.currentSlide + (st.options.slidesToScroll : Int)
  let nextSlide :=
    if (st.totalSlides : Int) ≤ nextSlide then
      if st.options.infinite then 0 else (st.totalSlides : Int) - 1
    else nextSlide
  goToSlide st nextSlide

/-- src/js/slider.js, prev (lines 306-318): go back by slidesToScroll; below 0,
wrap to the last slide under infinite mode, otherwise clamp to 0; then
goToSlide. -/
def prev (st : SliderState) : SliderState × List SliderEvent :=
  let prevSlide := st.currentSlide - (st.options.slidesToScroll : Int)
  let prevSlide :=
    if prevSlide < 0 then
      if st.options.infinite then (st.totalSlides : Int) - 1 else 0
    else prevSlide
  goToSlide st prevSlide

/-- src/js/slider.js, handleEnd inside setupDragEvents (lines 220-239), for a
drag that did start: with diff the released pointer position minus the start
position, commit to prev (diff positive) or next (diff negative) when the
absolute diff exceeds the swipe threshold, otherwise go back to the current
slide. -/
def handleEnd (st : SliderState) (startX currentX : Int) : SliderState × List SliderEvent :=
  let diff := currentX - startX
  if st.options.swipeThreshold < diff.natAbs then
    if 0 < diff then prev st else next st
  else
    goToSlide st st.currentSlide

/-- src/js/slider.js, handleInfiniteLoop (lines 348-364): when the stored index
has moved past either end, reset it to the corresponding real slide and replay
goToSlide there (with the track transition suppressed, a purely visual
effect). -/
def handleInfiniteLoop (st : SliderState) : SliderState × List SliderEvent :=
  if (st.totalSlides : Int) ≤ st.currentSlide then
    goToSlide { st with currentSlide := 0 } 0
  else if st.currentSlide < 0 then
    goToSlide { st with currentSlide := (st.totalSlides : Int) - 1 }
      ((st.totalSlides : Int) - 1)
  else (st, [])

/-- The setTimeout callback scheduled by goToSlide (src/js/slider.js lines
273-280): release the transition lock, then run handleInfiniteLoop when
infinite mode is on. -/
def tick (st : SliderState) : SliderState × List SliderEvent :=
  let st := { st with isAnimating := false }
  if st.options.infinite then handleInfiniteLoop st else (st, [])

/-- src/js/slider.js, handleResize (lines 390-400): for every responsive entry
in array order, when the window width is at or below its threshold, assign its
settings onto the options; then goToSlide at the current index. -/
def handleResize (st : SliderState) (windowWidth : Nat) : SliderState × List SliderEvent :=
  let opts := st.options.responsive.foldl
    (fun o bp => if windowWidth ≤ bp.breakpoint then assignSettings o bp.settings else o)
    st.options
  goToSlide { st with options := opts } st.currentSlide

/-- The slider operations a claim sequence may contain: arrow or keyboard
next/prev, a completed drag gesture, a dot click (goTo), and the timer
callback releasing the transition lock. -/
inductive SliderOp where
  | next
  | prev
  | dragEnd (startX currentX : Int)
  | goTo (index : Int)
  | tick
  deriving Repr, DecidableEq

/-- Apply one operation to the state (event output discarded). -/
def stepState (st : SliderState) (op : SliderOp) : SliderState :=
  match op with
  | .next => (next st).1
  | .prev => (prev st).1
  | .dragEnd startX currentX => (handleEnd st startX currentX).1
  | .goTo index => (goToSlide st index).1
  | .tick => (tick st).1

/-- Run a sequence of operations, one event-loop turn at a time. -/
def runOps (st : SliderState) (ops : List SliderOp) : SliderState :=
  ops.foldl stepState st

/-- A valid operation in the sense of the specification: a goTo index is in
range; every other operation is always valid. -/
def opValid (totalSlides : Nat) (op : SliderOp) : Prop :=
  match op with
  | .goTo index => 0 ≤ index ∧ index < (totalSlides : Int)
  | _ => True

end Slider

/-! ### Concrete states used to instantiate the theorems -/

/-- A slider mid-transition: the lock is held. -/
def stLocked : SliderState :=
  { currentSlide := 1, totalSlides := 5, isAnimating := true, options := {} }

/-- An idle five-slide slider on slide 2 with the default options. -/
def stFree : SliderState :=
  { currentSlide := 2, totalSlides := 5, isAnimating := false, options := {} }

/-- An idle infinite-mode slider standing on its last slide. -/
def stInfLast : SliderState :=
  { currentSlide := 4, totalSlides := 5, isAnimating := false, options := {} }

/-- An idle non-infinite slider standing on its last slide. -/
def stClampLast : SliderState :=
  { currentSlide := 4, totalSlides := 5, isAnimating := false,
    options := { infinite := false } }

/-- An idle slider on a non-boundary slide. -/
def stMid : SliderState :=
  { currentSlide := 1, totalSlides := 5, isAnimating := false, options := {} }

/-- Two responsive rules in ascending threshold order, both matching any
window width at or below 600. -/
def respRules : List Breakpoint :=
  [ { breakpoint := 600, settings := { slidesToShow := some 2 } },
    { breakpoint := 900, settings := { slidesToShow := some 3 } } ]

/-- An idle slider configured with the two responsive rules above. -/
def stResp : SliderState :=
  { currentSlide := 0, totalSlides := 5, isAnimating := false,
    options := { slidesToShow := 4, responsive := respRules } }

/-- A storage backend whose accesses throw. -/
def failingStore : StorageBackend :=
  { data := [("theme", "dark")], failing := true }

/-! ### Helper lemmas -/

/-- State component of goToSlide: unchanged under the lock, otherwise the
index is stored and the lock taken. -/
lemma goToSlide_fst (st : SliderState) (index : Int) :
    (Slider.goToSlide st index).1 =
      if st.isAnimating then st
      else { st with isAnimating := true, currentSlide := index } := by
  unfold Slider.goToSlide
  split <;> rfl

/-- next leaves the options and the slide count unchanged and, when infinite
mode is off and the index is in range, keeps it in range. -/
lemma next_invariant (st : SliderState)
    (hinf : st.options.infinite = false) (hN : 0 < st.totalSlides)
    (hlo : 0 ≤ st.currentSlide) (hhi : st.currentSlide < (st.totalSlides : Int)) :
    (Slider.next st).1.options = st.options ∧
    (Slider.next st).1.totalSlides = st.totalSlides ∧
    0 ≤ (Slider.next st).1.currentSlide ∧
    (Slider.next st).1.currentSlide < (st.totalSlides : Int) := by
  simp only [Slider.next, goToSlide_fst]
  split
  · exact ⟨rfl, rfl, hlo, hhi⟩
  · refine ⟨rfl, rfl, ?_, ?_⟩ <;>
      · simp [hinf]
        split_ifs <;> omega

/-- prev leaves the options and the slide count unchanged and, when infinite
mode is off and the index is in range, keeps it in range. -/
lemma prev_invariant (st : SliderState)
    (hinf : st.options.infinite = false) (hN : 0 < st.totalSlides)
    (hlo : 0 ≤ st.currentSlide) (hhi : st.currentSlide < (st.totalSlides : Int)) :
    (Slider.prev st).1.options = st.options ∧
    (Slider.prev st).1.totalSlides = st.totalSlides ∧
    0 ≤ (Slider.prev st).1.currentSlide ∧
    (Slider.prev st).1.currentSlide < (st.totalSlides : Int) := by
  simp only [Slider.prev, goToSlide_fst]
  split
  · exact ⟨rfl, rfl, hlo, hhi⟩
  · refine ⟨rfl, rfl, ?_, ?_⟩ <;>
      · simp [hinf]
        split_ifs <;> omega

/-- One valid operation on a non-infinite slider preserves the options, the
slide count, and the index range invariant. -/
lemma stepState_invariant (st : SliderState) (op : Slider.SliderOp)
    (hinf : st.options.infinite = false) (hN : 0 < st.totalSlides)
    (hlo : 0 ≤ st.currentSlide) (hhi : st.currentSlide < (st.totalSlides : Int))
    (hv : Slider.opValid st.totalSlides op) :
    (Slider.stepState st op).options = st.options ∧
    (Slider.stepState st op).totalSlides = st.totalSlides ∧
    0 ≤ (Slider.stepState st op).currentSlide ∧
    (Slider.stepState st op).currentSlide < (st.totalSlides : Int) := by
  cases op with
  | next => exact next_invariant st hinf hN hlo hhi
  | prev => exact prev_invariant st hinf hN hlo hhi
  | dragEnd startX currentX =>
    simp only [Slider.stepState, Slider.handleEnd]
    split
    · split
      · exact prev_invariant st hinf hN hlo hhi
      · exact next_invariant st hinf hN hlo hhi
    · rw [goToSlide_fst]
      split
      · exact ⟨rfl, rfl, hlo, hhi⟩
      · exact ⟨rfl, rfl, hlo, hhi⟩
  | goTo index =>
    obtain ⟨hvlo, hvhi⟩ := hv
    simp only [Slider.stepState]
    rw [goToSlide_fst]
    split
    · exact ⟨rfl, rfl, hlo, hhi⟩
    · exact ⟨rfl, rfl, hvlo, hvhi⟩
  | tick =>
    refine ⟨?_, ?_, ?_, ?_⟩ <;>
      simp [Slider.stepState, Slider.tick, hinf, hlo, hhi]

/-- Running any sequence of valid operations on a non-infinite slider
preserves the options, the slide count, and the index range invariant. -/
lemma runOps_invariant (ops : List Slider.SliderOp) (st : SliderState)
    (hinf : st.options.infinite = false) (hN : 0 < st.totalSlides)
    (hlo : 0 ≤ st.currentSlide) (hhi : st.currentSlide < (st.totalSlides : Int))
    (hv : ∀ op ∈ ops, Slider.opValid st.totalSlides op) :
    (Slider.runOps st ops).options = st.options ∧
    (Slider.runOps st ops).totalSlides = st.totalSlides ∧
    0 ≤ (Slider.runOps st ops).currentSlide ∧
    (Slider.runOps st ops).currentSlide < (st.totalSlides : Int) := by
  induction ops generalizing st with
  | nil => exact ⟨rfl, rfl, hlo, hhi⟩
  | cons op ops ih =>
    obtain ⟨h1, h2, h3, h4⟩ :=
      stepState_invariant st op hinf hN hlo hhi (hv op (List.mem_cons_self op ops))
    have hN' : 0 < (Slider.stepState st op).totalSlides := by rw [h2]; exact hN
    have hinf' : (Slider.stepState st op).options.infinite = false := by
      rw [h1]; exact hinf
    have hhi' : (Slider.stepState st op).currentSlide <
        ((Slider.stepState st op).totalSlides : Int) := by rw [h2]; exact h4
    have hv' : ∀ o ∈ ops, Slider.opValid (Slider.stepState st op).totalSlides o := by
      intro o ho
      rw [h2]
      exact hv o (List.mem_cons_of_mem op ho)
    obtain ⟨g1, g2, g3, g4⟩ :=
      ih (Slider.stepState st op) hinf' hN' h3 hhi' hv'
    refine ⟨?_, ?_, g3, ?_⟩
    · show (Slider.runOps st (op :: ops)).options = st.options
      calc (Slider.runOps st (op :: ops)).options
          = (Slider.runOps (Slider.stepState st op) ops).options := rfl
        _ = (Slider.stepState st op).options := g1
        _ = st.options := h1
    · calc (Slider.runOps st (op :: ops)).totalSlides
          = (Slider.runOps (Slider.stepState st op) ops).totalSlides := rfl
        _ = (Slider.stepState st op).totalSlides := g2
        _ = st.totalSlides := h2
    · calc (Slider.runOps st (op :: ops)).currentSlide
          = (Slider.runOps (Slider.stepState st op) ops).currentSlide := rfl
        _ < ((Slider.stepState st op).totalSlides : Int) := g4
        _ = (st.totalSlides : Int) := by rw [h2]

/-! ### Claims -/

/-- C7: the email validator accepts "user@example.com" and rejects
"user@example" (no dot after the at sign) and "user.example.com" (no at
sign). -/
theorem c7_email_validator_examples :
    Utils.isValidEmail "user@example.com" = true ∧
    Utils.isValidEmail "user@example" = false ∧
    Utils.isValidEmail "user.example.com" = false := by
  decide

/-- C10: the two phone validators are not equivalent.  On "1234567890a" the
contact-form field check (at least ten digits, any other characters allowed)
accepts, while Utils.isValidPhone additionally restricts every character to
digits, whitespace, hyphen, plus and parentheses and therefore rejects. -/
theorem c10_phone_validators_differ :
    ContactForm.validatePhoneValue "1234567890a" = true ∧
    Utils.isValidPhone "1234567890a" = false := by
  decide

/-- C9: when the underlying storage access throws, getStorage catches and
returns null (none, for any parse function), and setStorage catches and
leaves the storage exactly as it was; both functions are total, so no
exception propagates. -/
theorem c9_storage_failure_degrades {V : Type}
    (parse : String → Except String V) (stringify : V → String)
    (b : StorageBackend) (h : b.failing = true) (key : String) (v : V) :
    Utils.getStorage parse b key = none ∧
    Utils.setStorage stringify b key v = b := by
  constructor
  · simp [Utils.getStorage, rawGetItem, h]
  · simp [Utils.setStorage, rawSetItem, h]

/-- Witness for C9 at a concrete failing backend, key and value. -/
theorem c9_storage_failure_degrades_witness :
    Utils.getStorage (fun s => Except.ok s.length) failingStore "theme" = none ∧
    Utils.setStorage (fun n => toString n) failingStore "theme" (5 : Nat) = failingStore :=
  c9_storage_failure_degrades (fun s => Except.ok s.length) (fun n => toString n)
    failingStore rfl "theme" 5

/-- C5: calling goToSlide while the transition lock is held is a silent no-op
for every index: the state (all fields) is returned unchanged and no
slideChange event is dispatched; nothing is queued. -/
theorem c5_goto_locked_noop (st : SliderState) (index : Int)
    (h : st.isAnimating = true) :
    Slider.goToSlide st index = (st, []) := by
  simp [Slider.goToSlide, h]

/-- Witness for C5 at a concrete locked state. -/
theorem c5_goto_locked_noop_witness :
    Slider.goToSlide stLocked 3 = (stLocked, []) :=
  c5_goto_locked_noop stLocked 3 rfl

/-- C4: for every drag with pointer delta d = currentX - startX, when |d|
exceeds the swipe threshold the release is exactly a prev() call for positive
d and exactly a next() call for negative d; when |d| does not exceed the
threshold the release leaves currentSlide exactly as before the drag. -/
theorem c4_drag_release (st : SliderState) (startX currentX : Int) :
    (st.options.swipeThreshold < (currentX - startX).natAbs →
      (0 < currentX - startX →
        Slider.handleEnd st startX currentX = Slider.prev st) ∧
      (currentX - startX < 0 →
        Slider.handleEnd st startX currentX = Slider.next st)) ∧
    ((currentX - startX).natAbs ≤ st.options.swipeThreshold →
      (Slider.handleEnd st startX currentX).1.currentSlide = st.currentSlide) := by
  constructor
  · intro hgt
    constructor
    · intro hpos
      simp [Slider.handleEnd, hgt, hpos]
    · intro hneg
      have hnp : ¬ (0 < currentX - startX) := by omega
      simp [Slider.handleEnd, hgt, hnp]
  · intro hle
    have hng : ¬ (st.options.swipeThreshold < (currentX - startX).natAbs) := by omega
    simp only [Slider.handleEnd, hng, if_false, goToSlide_fst]
    split <;> rfl

/-- Witness for C4: a committed drag in each direction and a sub-threshold
drag at a concrete idle slider. -/
theorem c4_drag_release_witness :
    Slider.handleEnd stFree 0 100 = Slider.prev stFree ∧
    Slider.handleEnd stFree 0 (-100) = Slider.next stFree ∧
    (Slider.handleEnd stFree 0 10).1.currentSlide = stFree.currentSlide :=
  ⟨((c4_drag_release stFree 0 100).1 (by decide)).1 (by decide),
   ((c4_drag_release stFree 0 (-100)).1 (by decide)).2 (by decide),
   (c4_drag_release stFree 0 10).2 (by decide)⟩

/-- C3: for an idle slider with at least one slide and any slidesToScroll
value: under infinite mode, next() from any index whose advance reaches or
passes the slide count wraps around the end to slide 0, and symmetrically
prev() from any index whose retreat passes 0 wraps to the last slide; with
infinite mode disabled, next() at the last slide and prev() at the first
slide leave the index unchanged, and next()/prev() from any in-range index
clamp the result to the range [0, slideCount). -/
theorem c3_next_prev_wrap_clamp (st : SliderState)
    (ha : st.isAnimating = false) (hN : 0 < st.totalSlides) :
    (st.options.infinite = true →
      (st.totalSlides : Int) ≤ st.currentSlide + (st.options.slidesToScroll : Int) →
      (Slider.next st).1.currentSlide = 0) ∧
    (st.options.infinite = true →
      st.currentSlide - (st.options.slidesToScroll : Int) < 0 →
      (Slider.prev st).1.currentSlide = (st.totalSlides : Int) - 1) ∧
    (st.options.infinite = false →
      st.currentSlide = (st.totalSlides : Int) - 1 →
      (Slider.next st).1.currentSlide = st.currentSlide) ∧
    (st.options.infinite = false → st.currentSlide = 0 →
      (Slider.prev st).1.currentSlide = st.currentSlide) ∧
    (st.options.infinite = false → 0 ≤ st.currentSlide →
      st.currentSlide < (st.totalSlides : Int) →
      0 ≤ (Slider.next st).1.currentSlide ∧
      (Slider.next st).1.currentSlide < (st.totalSlides : Int) ∧
      0 ≤ (Slider.prev st).1.currentSlide ∧
      (Slider.prev st).1.currentSlide < (st.totalSlides : Int)) := by
  refine ⟨?_, ?_, ?_, ?_, ?_⟩
  · intro hi hge
    simp [Slider.next, Slider.goToSlide, ha, hi, hge]
  · intro hi hlt
    simp [Slider.prev, Slider.goToSlide, ha, hi, hlt]
  · intro hi hlast
    simp [Slider.next, goToSlide_fst, ha, hi]
    split_ifs <;> omega
  · intro hi hfirst
    simp [Slider.prev, goToSlide_fst, ha, hi]
    split_ifs <;> omega
  · intro hi hlo hhi
    refine ⟨?_, ?_, ?_, ?_⟩ <;>
      · simp [Slider.next, Slider.prev, goToSlide_fst, ha, hi]
        split_ifs <;> omega

/-- Witness for C3: a wrap under infinite mode and a clamping no-op without
it, at concrete last-slide states. -/
theorem c3_next_prev_wrap_clamp_witness :
    (Slider.next stInfLast).1.currentSlide = 0 ∧
    (Slider.next stClampLast).1.currentSlide = stClampLast.currentSlide :=
  ⟨(c3_next_prev_wrap_clamp stInfLast rfl (by decide)).1 rfl (by decide),
   (c3_next_prev_wrap_clamp stClampLast rfl (by decide)).2.2.1 rfl (by decide)⟩

/-- C8 counterexample: "123.456.7890" is a string of ten digits separated by
ordinary dots, yet the phone validator rejects it — the dot is outside the
character class of the regex at utils.js:348 — so the validator does not
accept every 10-digit string regardless of separators. -/
theorem c8_counterexample_dot_separators :
    Utils.digitCount "123.456.7890" = 10 ∧
    Utils.isValidPhone "123.456.7890" = false := by
  decide

/-- C8 amended: the phone validator rejects every string containing exactly
nine digits, and accepts every string of ten digits whose separator
characters are among those its regex admits (whitespace, hyphen, plus,
parentheses); separators outside that class cause rejection (see the
counterexample).  In particular "123-456-7890" is valid and "12345678" is
invalid. -/
theorem c8_phone_validator (s t : String)
    (h9 : Utils.digitCount s = 9)
    (hclass : t.toList.all Utils.phoneChar = true)
    (h10 : Utils.digitCount t = 10) :
    Utils.isValidPhone s = false ∧
    Utils.isValidPhone t = true ∧
    Utils.isValidPhone "123-456-7890" = true ∧
    Utils.isValidPhone "12345678" = false := by
  refine ⟨?_, ?_, by decide, by decide⟩
  · simp [Utils.isValidPhone, h9]
  · have hne : ¬ t.data = [] := by
      intro hl
      simp [Utils.digitCount, String.toList, hl] at h10
    have hall : ∀ x ∈ t.data, Utils.phoneChar x = true := by
      simpa [List.all_eq_true, String.toList] using hclass
    simp [Utils.isValidPhone, h10]
    exact ⟨hne, hall⟩

/-- Witness for C8 at a nine-digit string and a ten-digit string written with
parentheses, a space and a hyphen as separators. -/
theorem c8_phone_validator_witness :
    Utils.isValidPhone "123456789" = false ∧
    Utils.isValidPhone "(123) 456-7890" = true ∧
    Utils.isValidPhone "123-456-7890" = true ∧
    Utils.isValidPhone "12345678" = false :=
  c8_phone_validator "123456789" "(123) 456-7890" (by decide) (by decide) (by decide)

/-- C6 counterexample: calling next() and then prev() back-to-back from the
non-boundary index 1 of an idle five-slide slider (neither call clamps or
wraps: 1 + 1 < 5 and 2 - 1 >= 0) leaves currentSlide at 2, not 1 — the prev()
call lands while the transition lock taken by next() is still held, so its
goToSlide is dropped. -/
theorem c6_counterexample_lock_drops_prev :
    (Slider.prev (Slider.next stMid).1).1.currentSlide = 2 ∧
    stMid.currentSlide = 1 := by
  decide

/-- C6 amended: from every idle non-boundary index i (the advance stays below
the slide count and i is nonnegative, so neither call clamps or wraps),
invoking next(), letting its transition finish (the scheduled timeout
releases the lock), and then invoking prev() returns currentSlide to exactly
i. -/
theorem c6_next_prev_roundtrip (st : SliderState)
    (ha : st.isAnimating = false)
    (hadv : st.currentSlide + (st.options.slidesToScroll : Int) < (st.totalSlides : Int))
    (hlo : 0 ≤ st.currentSlide) :
    (Slider.prev (Slider.tick (Slider.next st).1).1).1.currentSlide =
      st.currentSlide := by
  have hnowrap : ¬ ((st.totalSlides : Int) ≤
      st.currentSlide + (st.options.slidesToScroll : Int)) := by omega
  by_cases hinf : st.options.infinite
  all_goals
    simp [Slider.next, Slider.tick, Slider.handleInfiniteLoop, Slider.prev,
      goToSlide_fst, ha, hinf, hnowrap]
    try split_ifs
    all_goals intros
    all_goals simp_all
    all_goals omega

/-- Witness for C6 (amended) at the concrete idle slider on index 1. -/
theorem c6_next_prev_roundtrip_witness :
    (Slider.prev (Slider.tick (Slider.next stMid).1).1).1.currentSlide =
      stMid.currentSlide :=
  c6_next_prev_roundtrip stMid rfl (by decide) (by decide)

/-- C2 counterexample: with the two ascending rules (600 -> slidesToShow 2,
900 -> slidesToShow 3) and window width 500, both rules match; the claim says
the options after resize equal those of the lowest-threshold matching rule
(slidesToShow 2), but handleResize applies every matching rule in array
order, so the higher rule overwrites the lower one and slidesToShow ends up
3. -/
theorem c2_counterexample_last_rule_wins :
    (Slider.handleResize stResp 500).1.options.slidesToShow = 3 ∧
    ¬ (Slider.handleResize stResp 500).1.options.slidesToShow = 2 := by
  decide

/-- C2 amended: on a viewport resize, every matching breakpoint rule (window
width at or below the rule's threshold) overrides the slider options in array
order, so the last matching rule in the array — with rules ordered by
ascending threshold, the highest-threshold matching rule — determines each
option it sets; the slider is re-rendered at the unchanged current index.
Stated for the slidesToShow option set by the last rule of the array when
that rule matches. -/
theorem c2_resize_applies_matching_rules (st : SliderState) (windowWidth : Nat)
    (rs : List Breakpoint) (r : Breakpoint) (v : Nat)
    (hresp : st.options.responsive = rs ++ [r])
    (hmatch : windowWidth ≤ r.breakpoint)
    (hset : r.settings.slidesToShow = some v) :
    (Slider.handleResize st windowWidth).1.options.slidesToShow = v ∧
    (Slider.handleResize st windowWidth).1.currentSlide = st.currentSlide := by
  unfold Slider.handleResize
  rw [hresp, List.foldl_append]
  simp only [List.foldl_cons, List.foldl_nil, hmatch, if_true, goToSlide_fst]
  constructor
  · split <;> simp [assignSettings, hset]
  · split <;> simp

/-- Witness for C2 (amended) at the concrete two-rule slider and window width
500. -/
theorem c2_resize_applies_matching_rules_witness :
    (Slider.handleResize stResp 500).1.options.slidesToShow = 3 ∧
    (Slider.handleResize stResp 500).1.currentSlide = stResp.currentSlide :=
  c2_resize_applies_matching_rules stResp 500
    [{ breakpoint := 600, settings := { slidesToShow := some 2 } }]
    { breakpoint := 900, settings := { slidesToShow := some 3 } }
    3 rfl (by decide) rfl

/-- C1: with infinite mode disabled, every sequence of slider operations
(next, prev, completed drags, goTo at in-range indices, and the timer
callbacks releasing the transition lock) starting from index 0 of a slider
with a positive slide count keeps currentIndex in the range [0, slideCount). -/
theorem c1_index_stays_in_range (totalSlides : Nat) (opts : Options)
    (ops : List Slider.SliderOp)
    (hN : 0 < totalSlides) (hinf : opts.infinite = false)
    (hv : ∀ op ∈ ops, Slider.opValid totalSlides op) :
    0 ≤ (Slider.runOps
        { currentSlide := 0, totalSlides := totalSlides,
          isAnimating := false, options := opts } ops).currentSlide ∧
    (Slider.runOps
        { currentSlide := 0, totalSlides := totalSlides,
          isAnimating := false, options := opts } ops).currentSlide <
      (totalSlides : Int) := by
  obtain ⟨-, -, h3, h4⟩ :=
    runOps_invariant ops
      { currentSlide := 0, totalSlides := totalSlides,
        isAnimating := false, options := opts }
      hinf hN (by simp) (by simp; exact_mod_cast hN) hv
  exact ⟨h3, h4⟩

/-- Witness for C1: a two-slide non-infinite slider run through a next, the
lock-releasing tick, a goTo, and a prev. -/
theorem c1_index_stays_in_range_witness :
    0 ≤ (Slider.runOps
        { currentSlide := 0, totalSlides := 2,
          isAnimating := false, options := { infinite := false } }
        [Slider.SliderOp.next, Slider.SliderOp.tick,
         Slider.SliderOp.goTo 1, Slider.SliderOp.prev]).currentSlide ∧
    (Slider.runOps
        { currentSlide := 0, totalSlides := 2,
          isAnimating := false, options := { infinite := false } }
        [Slider.SliderOp.next, Slider.SliderOp.tick,
         Slider.SliderOp.goTo 1, Slider.SliderOp.prev]).currentSlide <
      ((2 : Nat) : Int) :=
  c1_index_stays_in_range 2 { infinite := false }
    [Slider.SliderOp.next, Slider.SliderOp.tick,
     Slider.SliderOp.goTo 1, Slider.SliderOp.prev]
    (by decide) rfl
    (by
      intro op hop
      fin_cases hop
      · trivial
      · trivial
      · exact ⟨by decide, by decide⟩
      · trivial)

end Amora
